import Mathlib

/-!
Verification development for a zkSync Era arbitrage quote/opportunity engine.

The TypeScript source is shallowly embedded: JavaScript BigInt values become
Lean Int (arbitrary precision, division truncating toward zero, exactly
Int.tdiv / Int.tmod); JavaScript strings become Lean String; fallible
operations (JS expressions that can throw) return Option; asynchronous
network calls are modelled by passing the awaited on-chain response in as an
explicit argument, so every embedded function is a pure function of its
inputs and, where relevant, an explicit mutable-state value.
-/

namespace Spec2Proof

/-! ## Deterministic math utilities (src/utils/math.ts)

JS BigInt division truncates toward zero (Int.tdiv) and throws a RangeError
on a zero divisor; a throwing call is modelled as Option.none. -/

/-- Embeds mulDiv: Result = (a * b) / scale.  The source performs the BigInt
division unguarded, so a zero scale throws (modelled as none). -/
def mulDiv (a b scale : Int) : Option Int :=
  if scale = 0 then none else some ((a * b).tdiv scale)

/-- Embeds toBasisPoints: (value * 10000) / total, with an explicit early
return of 0 when total is zero. -/
def toBasisPoints (value total : Int) : Int :=
  if total = 0 then 0 else (value * 10000).tdiv total

/-- Embeds applyBasisPointReduction: amount * (10000 - bps) / 10000. -/
def applyBasisPointReduction (amount bps : Int) : Int :=
  (amount * (10000 - bps)).tdiv 10000

/-- Embeds roundDown: (value / unit) * unit.  The division is unguarded, so
a zero unit throws (modelled as none). -/
def roundDown (value unit : Int) : Option Int :=
  if unit = 0 then none else some (value.tdiv unit * unit)

/-- Embeds calculateGrossSpreadBps: returns 0 when amountIn is 0, otherwise
((amountOut - amountIn) * 10000) / amountIn with truncating division. -/
def calculateGrossSpreadBps (amountIn amountOut : Int) : Int :=
  if amountIn = 0 then 0 else ((amountOut - amountIn) * 10000).tdiv amountIn

/-- Embeds applySlippage, a thin alias of applyBasisPointReduction. -/
def applySlippage (amount slippageBps : Int) : Int :=
  applyBasisPointReduction amount slippageBps

/-! ### String-level amount parsing/formatting (same file)

JS strings over the relevant alphabet (ASCII digits, the dot) are modelled
as Lean String / List Char. -/

/-- Embeds the implicit BigInt(string) conversion for canonical non-negative
digit strings; BigInt of the empty string is 0n in JS. -/
def strToNat (s : List Char) : Nat :=
  s.foldl (fun acc c => acc * 10 + (c.toNat - 48)) 0

/-- Embeds String.prototype.split on the single character dot. -/
def splitDot : List Char → List (List Char)
  | [] => [[]]
  | c :: rest =>
    if c = '.' then [] :: splitDot rest
    else
      match splitDot rest with
      | [] => [[c]]
      | p :: ps => (c :: p) :: ps

/-- Embeds String.prototype.padEnd with a one-character pad. -/
def padEndChar (s : List Char) (n : Nat) (c : Char) : List Char :=
  s ++ List.replicate (n - s.length) c

/-- Embeds String.prototype.padStart with a one-character pad. -/
def padStartChar (s : List Char) (n : Nat) (c : Char) : List Char :=
  List.replicate (n - s.length) c ++ s

/-- Embeds BigInt.prototype.toString (base 10). -/
def jsBigIntToString (i : Int) : List Char :=
  if i < 0 then '-' :: (Nat.repr i.natAbs).toList else (Nat.repr i.natAbs).toList

/-- Embeds parseAmount: split the value on the dot (the fractional part
defaults to the empty string), pad/truncate the fractional part to exactly
the declared number of decimals, and assemble the integer. -/
def parseAmount (value : String) (decimals : Nat) : Int :=
  let parts := splitDot value.toList
  let whole := parts.headD []
  let fractional := (parts.drop 1).headD []
  let paddedFractional := (padEndChar fractional decimals '0').take decimals
  (strToNat whole : Int) * ((10 : Int) ^ decimals) + (strToNat paddedFractional : Int)

/-- Embeds formatAmount: split the amount by 10^decimals with truncating
BigInt division, then render the fractional part padded to the declared
width and truncated (never rounded) to the display precision. -/
def formatAmount (amount : Int) (decimals : Nat) (maxDecimals : Nat) : String :=
  let divisor : Int := (10 : Int) ^ decimals
  let wholePart := amount.tdiv divisor
  let fractionalPart := amount.tmod divisor
  if fractionalPart = 0 ∧ maxDecimals = 0 then
    String.mk (jsBigIntToString wholePart)
  else
    let fractionalStr := padStartChar (jsBigIntToString fractionalPart) decimals '0'
    let displayDecimals := min maxDecimals decimals
    let truncatedFractional := fractionalStr.take displayDecimals
    let paddedFractional := padEndChar truncatedFractional displayDecimals '0'
    String.mk (jsBigIntToString wholePart ++ '.' :: paddedFractional)

/-! ## DEX-scoped token resolver (dexTokenResolver.ts)

Addresses are ASCII hex strings, on which JS toLowerCase agrees with the
ASCII Char.toLower applied character by character. -/

/-- Embeds String.prototype.toLowerCase for ASCII address strings. -/
def toLowerStr (s : String) : String :=
  String.mk (s.toList.map Char.toLower)

/-- The four aliasing policies of the resolver. -/
inductive AliasingPolicy
  | auto
  | forceNative
  | forceBridged
  | off
deriving DecidableEq, Repr

/-- Provenance tag recorded per side of a resolution. -/
inductive Provenance
  | native
  | bridged
  | original
deriving DecidableEq, Repr

/-- Embeds the TokenResolution result shape. -/
structure TokenResolution where
  tokenIn : String
  tokenOut : String
  fromIn : Provenance
  fromOut : Provenance
deriving DecidableEq, Repr

/-- Resolver state: the two configured USDC addresses. -/
structure DEXTokenResolver where
  usdcNative : String
  usdcBridged : String
deriving DecidableEq, Repr

/-- Embeds the DEXTokenResolver constructor, which lower-cases the two
configured addresses before storing them. -/
def mkResolver (nativeAddr bridgedAddr : String) : DEXTokenResolver :=
  { usdcNative := toLowerStr nativeAddr, usdcBridged := toLowerStr bridgedAddr }

/-- Embeds DEXTokenResolver.resolve.  The dex argument is accepted as in the
source but plays no part in the substitution logic. -/
def resolve (r : DEXTokenResolver) (dex tokenIn tokenOut : String)
    (policy : AliasingPolicy) : TokenResolution :=
  if policy = .off then
    { tokenIn := tokenIn, tokenOut := tokenOut
      fromIn := .original, fromOut := .original }
  else
    let tokenInLower := toLowerStr tokenIn
    let tokenOutLower := toLowerStr tokenOut
    if policy = .forceNative then
      { tokenIn := if tokenInLower = r.usdcBridged then r.usdcNative else tokenIn
        tokenOut := if tokenOutLower = r.usdcBridged then r.usdcNative else tokenOut
        fromIn := if tokenInLower = r.usdcBridged then .native else .original
        fromOut := if tokenOutLower = r.usdcBridged then .native else .original }
    else if policy = .forceBridged then
      { tokenIn := if tokenInLower = r.usdcNative then r.usdcBridged else tokenIn
        tokenOut := if tokenOutLower = r.usdcNative then r.usdcBridged else tokenOut
        fromIn := if tokenInLower = r.usdcNative then .bridged else .original
        fromOut := if tokenOutLower = r.usdcNative then .bridged else .original }
    else
      { tokenIn := tokenIn, tokenOut := tokenOut
        fromIn := .original, fromOut := .original }

/-! ## Opportunity builder core (src/opportunities/builder.ts)

The awaited collaborator results of buildOpportunity (the best return-leg
output finalA, the two USD conversions, the gas estimate and its USD
conversion) and the two values derived from static configuration
(maxSlippageBps, minProfitUsdc) enter as explicit arguments; the method body
from the round-trip computation to the returned record is embedded as a pure
function of them. -/

/-- The fields of a RecognizedOpportunity computed by buildOpportunity
(quote metadata, symbols and timestamps are carried through unchanged in the
source and are not modelled). -/
structure RecognizedOpportunity where
  amountIn : Int
  grossSpreadBps : Int
  slipAdjSpreadBps : Int
  usdValueIn : Int
  usdValueOut : Int
  recognized : Bool
  executable : Bool
  estimatedGasCost : Int
  netProfitEst : Int
deriving DecidableEq, Repr

/-- Embeds the computational core of OpportunityBuilder.buildOpportunity. -/
def buildOpportunity (amountIn finalA usdValueIn usdValueOut estimatedGasCost
    estimatedGasCostUsdc maxSlippageBps minProfitUsdc : Int) :
    RecognizedOpportunity :=
  let grossSpreadBps := calculateGrossSpreadBps amountIn finalA
  let finalAWithSlip := applySlippage finalA maxSlippageBps
  let slipAdjSpreadBps := calculateGrossSpreadBps amountIn finalAWithSlip
  let grossProfitUsdc := if usdValueOut > usdValueIn then usdValueOut - usdValueIn else 0
  let netProfitEst :=
    if grossProfitUsdc > estimatedGasCostUsdc then grossProfitUsdc - estimatedGasCostUsdc else 0
  let recognized := decide (grossSpreadBps > 0)
  let executable :=
    recognized && decide (netProfitEst ≥ minProfitUsdc) && decide (slipAdjSpreadBps > 0)
  { amountIn := amountIn, grossSpreadBps := grossSpreadBps
    slipAdjSpreadBps := slipAdjSpreadBps, usdValueIn := usdValueIn
    usdValueOut := usdValueOut, recognized := recognized
    executable := executable, estimatedGasCost := estimatedGasCost
    netProfitEst := netProfitEst }

/-! ## SyncSwap quote engine (src/prices/adapters/syncswap.ts)

The module-level error counter map and disabled-pair set are modelled as an
explicit state value threaded through each call; Map.get(k) with a || 0
default becomes a total function into Nat, Set.has becomes a Boolean
predicate.  The awaited on-chain reads of one call (factory pool lookups,
quote-ABI probes, pool-state read) enter as one record of responses. -/

/-- Adapter-local circuit-breaker state: consecutive-error counters and the
set of disabled pair keys. -/
structure SyncSwapState where
  errorCounters : String → Nat
  disabledPairs : String → Bool

/-- The fixed consecutive-failure threshold. -/
def MAX_CONSECUTIVE_ERRORS : Nat := 5

/-- Embeds the pair-key construction shared by the breaker helpers: both
addresses lower-cased, joined by a dash. -/
def pairKey (tokenIn tokenOut : String) : String :=
  toLowerStr tokenIn ++ "-" ++ toLowerStr tokenOut

/-- Embeds isPairDisabled. -/
def isPairDisabled (st : SyncSwapState) (tokenIn tokenOut : String) : Bool :=
  st.disabledPairs (pairKey tokenIn tokenOut)

/-- Embeds recordError: increment the pair's counter and, at or above the
threshold, add the pair to the disabled set. -/
def recordError (st : SyncSwapState) (tokenIn tokenOut : String) : SyncSwapState :=
  let k := pairKey tokenIn tokenOut
  let newCount := st.errorCounters k + 1
  { errorCounters := fun x => if x = k then newCount else st.errorCounters x
    disabledPairs :=
      if newCount ≥ MAX_CONSECUTIVE_ERRORS then
        fun x => if x = k then true else st.disabledPairs x
      else st.disabledPairs }

/-- Embeds recordSuccess: delete the pair's counter entry (its get-or-zero
view becomes 0); the disabled set is untouched. -/
def recordSuccess (st : SyncSwapState) (tokenIn tokenOut : String) : SyncSwapState :=
  let k := pairKey tokenIn tokenOut
  { errorCounters := fun x => if x = k then 0 else st.errorCounters x
    disabledPairs := st.disabledPairs }

/-- Embeds the PoolState read for the off-chain fallback. -/
structure PoolState where
  token0 : String
  token1 : String
  reserve0 : Int
  reserve1 : Int
  fee : Int
deriving DecidableEq, Repr

/-- Embeds calculateConstantProductQuote; the final BigInt division is
unguarded, so a zero denominator throws (modelled none, caught by the
caller's try/catch). -/
def calculateConstantProductQuote (state : PoolState) (tokenIn : String)
    (amountIn : Int) : Option Int :=
  let isToken0 := toLowerStr tokenIn = toLowerStr state.token0
  let reserveIn := if isToken0 then state.reserve0 else state.reserve1
  let reserveOut := if isToken0 then state.reserve1 else state.reserve0
  let feeBps := state.fee
  let amountInAfterFee := (amountIn * (10000 - feeBps)).tdiv 10000
  if reserveIn + amountInAfterFee = 0 then none
  else some ((amountInAfterFee * reserveOut).tdiv (reserveIn + amountInAfterFee))

/-- The configured stable symbols. -/
def STABLE_SYMBOLS : List String := ["USDC", "USDT"]

/-- Embeds isStablePair. -/
def isStablePair (tokenInSymbol tokenOutSymbol : String) : Bool :=
  STABLE_SYMBOLS.contains tokenInSymbol && STABLE_SYMBOLS.contains tokenOutSymbol

/-- JS truthiness of an optional string (undefined and the empty string are
falsy). -/
def symTruthy : Option String → Bool
  | some s => decide (s ≠ "")
  | none => false

/-- Embeds the SyncSwapQuoteResult shape (the optional disabled field is
false when absent). -/
structure SyncSwapQuoteResult where
  success : Bool
  amountOut : Int
  poolAddress : Option String
  poolType : Option String
  method : Option String
  error : Option String
  disabled : Bool
deriving DecidableEq, Repr

/-- The awaited on-chain responses one getSyncSwapQuote call consumes: the
two factory pool lookups (the source keeps the empty string for a missing
pool), the two quote-ABI probes against the selected pool (some v when the
call returns v, none when it throws), and the pool-state read. -/
structure SyncSwapNetwork where
  classicPool : String
  stablePool : String
  probeA : Option Int
  probeB : Option Int
  poolState : Option PoolState
deriving DecidableEq, Repr

/-- Embeds probeQuoteABIs: try ABI A then ABI B, returning the first
response together with the method tag. -/
def probeQuoteABIs (net : SyncSwapNetwork) : Option (Int × String) :=
  match net.probeA with
  | some amountOut => some (amountOut, "ABI_A")
  | none =>
    match net.probeB with
    | some amountOut => some (amountOut, "ABI_B")
    | none => none

/-- Embeds getSyncSwapQuote.  Returns the quote result, the breaker state
after the call, and whether the call reached the network phase (pool
discovery and beyond); a call short-circuited by the disabled check never
does. -/
def getSyncSwapQuote (st : SyncSwapState) (tokenIn tokenOut : String)
    (amountIn : Int) (tokenInSymbol tokenOutSymbol : Option String)
    (net : SyncSwapNetwork) : SyncSwapQuoteResult × SyncSwapState × Bool :=
  if isPairDisabled st tokenIn tokenOut then
    ({ success := false, amountOut := 0, poolAddress := none, poolType := none
       method := none
       error := some "SyncSwap disabled for this pair after 5 consecutive failures"
       disabled := true },
     st, false)
  else
    if net.classicPool = "" ∧ net.stablePool = "" then
      ({ success := false, amountOut := 0, poolAddress := none, poolType := none
         method := none, error := some "No pools found", disabled := false },
       recordError st tokenIn tokenOut, true)
    else
      let sel : String × String :=
        if net.stablePool ≠ "" ∧ symTruthy tokenInSymbol = true ∧
            symTruthy tokenOutSymbol = true ∧
            isStablePair (tokenInSymbol.getD "") (tokenOutSymbol.getD "") = true then
          (net.stablePool, "stable")
        else if net.classicPool ≠ "" then (net.classicPool, "classic")
        else (net.stablePool, "stable")
      let allFailed : SyncSwapQuoteResult × SyncSwapState × Bool :=
        ({ success := false, amountOut := 0, poolAddress := some sel.1
           poolType := some sel.2, method := none
           error := some "All quote methods failed", disabled := false },
         recordError st tokenIn tokenOut, true)
      match probeQuoteABIs net with
      | some (amountOut, method) =>
        ({ success := true, amountOut := amountOut, poolAddress := some sel.1
           poolType := some sel.2, method := some method, error := none
           disabled := false },
         recordSuccess st tokenIn tokenOut, true)
      | none =>
        if sel.2 = "classic" then
          match net.poolState with
          | some ps =>
            match calculateConstantProductQuote ps tokenIn amountIn with
            | some amountOut =>
              ({ success := true, amountOut := amountOut, poolAddress := some sel.1
                 poolType := some sel.2, method := some "off-chain-classic"
                 error := none, disabled := false },
               recordSuccess st tokenIn tokenOut, true)
            | none => allFailed
          | none => allFailed
        else allFailed

/-- One getSyncSwapQuote invocation's inputs, everything except the threaded
breaker state. -/
structure SyncSwapCall where
  tokenIn : String
  tokenOut : String
  amountIn : Int
  tokenInSymbol : Option String
  tokenOutSymbol : Option String
  net : SyncSwapNetwork

/-- The breaker-state transition of one call. -/
def stepSyncSwap (st : SyncSwapState) (c : SyncSwapCall) : SyncSwapState :=
  (getSyncSwapQuote st c.tokenIn c.tokenOut c.amountIn c.tokenInSymbol
    c.tokenOutSymbol c.net).2.1

/-- The breaker state after a sequence of calls. -/
def runSyncSwap (st : SyncSwapState) (calls : List SyncSwapCall) : SyncSwapState :=
  calls.foldl stepSyncSwap st

/-! ## Price fetcher and aggregation (src/prices/fetcher.ts,
src/prices/adapters/velocore.ts, src/opportunities/builder.ts)

Each adapter method always resolves to one DexPrice; the awaited venue
responses enter as arguments.  The floating-point price display field is not
modelled (it is never used by the selection or spread logic). -/

/-- Embeds the DexPrice quote record (metadata omitted). -/
structure DexPrice where
  dex : String
  tokenIn : String
  tokenOut : String
  amountIn : Int
  amountOut : Int
  success : Bool
  error : Option String
deriving DecidableEq, Repr

/-- Embeds PriceFetcher.fetchMutePrice: the awaited router.getAmountsOut
response enters as ok of amounts[1] or as the thrown error message; a
successful response is surfaced as success with its amount, whatever that
amount is. -/
def fetchMutePrice (tokenIn tokenOut : String) (amountIn : Int)
    (routerResponse : Except String Int) : DexPrice :=
  match routerResponse with
  | .ok amountOut =>
    { dex := "mute", tokenIn := tokenIn, tokenOut := tokenOut
      amountIn := amountIn, amountOut := amountOut, success := true
      error := none }
  | .error msg =>
    { dex := "mute", tokenIn := tokenIn, tokenOut := tokenOut
      amountIn := amountIn, amountOut := 0, success := false
      error := some msg }

/-- Embeds PriceFetcher.fetchSyncSwapV1Price given the awaited quote-engine
result (the catch branch of the source produces the same failure shape and
is subsumed by a failed result). -/
def fetchSyncSwapV1Price (tokenIn tokenOut : String) (amountIn : Int)
    (result : SyncSwapQuoteResult) : DexPrice :=
  if result.success then
    { dex := "syncswap_v1", tokenIn := tokenIn, tokenOut := tokenOut
      amountIn := amountIn, amountOut := result.amountOut, success := true
      error := none }
  else
    { dex := "syncswap_v1", tokenIn := tokenIn, tokenOut := tokenOut
      amountIn := amountIn, amountOut := 0, success := false
      error := result.error }

/-- Embeds the per-path outcome record of fetchPancakeSwapV3Price (already
normalized by tryPathWithTimeout: a successful path carries its quoted
amount, a failed one carries a reason and amount 0). -/
structure PathAttempt where
  pathType : String
  feeTiers : List Nat
  amountOut : Int
  success : Bool
  error : Option String
deriving DecidableEq, Repr

/-- Embeds the best-path selection loop of fetchPancakeSwapV3Price: the
first successful attempt is taken unconditionally, later successful
attempts only on strictly greater output. -/
def selectBestAttempt (pathAttempts : List PathAttempt) : Option PathAttempt :=
  pathAttempts.foldl
    (fun bestAttempt attempt =>
      if attempt.success &&
          (match bestAttempt with
           | none => true
           | some b => decide (attempt.amountOut > b.amountOut)) then
        some attempt
      else bestAttempt)
    none

/-- Embeds PriceFetcher.fetchPancakeSwapV3Price given the collected path
attempts. -/
def fetchPancakeSwapV3Price (tokenIn tokenOut : String) (amountIn : Int)
    (pathAttempts : List PathAttempt) : DexPrice :=
  match selectBestAttempt pathAttempts with
  | some bestAttempt =>
    { dex := "pancakeswap_v3", tokenIn := tokenIn, tokenOut := tokenOut
      amountIn := amountIn, amountOut := bestAttempt.amountOut, success := true
      error := none }
  | none =>
    { dex := "pancakeswap_v3", tokenIn := tokenIn, tokenOut := tokenOut
      amountIn := amountIn, amountOut := 0, success := false
      error := some (((pathAttempts.find? (fun a => a.error.isSome)).bind
        (fun a => a.error)).getD "Unknown error") }

/-- Embeds the VelocoreQuoteResult shape. -/
structure VelocoreQuoteResult where
  success : Bool
  amountOut : Int
  error : Option String
deriving DecidableEq, Repr

/-- Embeds PriceFetcher.fetchVelocorePrice: a missing, empty or zero pool
address degrades to a configuration failure, otherwise the awaited adapter
result is mapped through. -/
def fetchVelocorePrice (tokenIn tokenOut : String) (amountIn : Int)
    (velocorePool : Option String) (result : VelocoreQuoteResult) : DexPrice :=
  match velocorePool with
  | none =>
    { dex := "velocore", tokenIn := tokenIn, tokenOut := tokenOut
      amountIn := amountIn, amountOut := 0, success := false
      error := some "Pool address not configured" }
  | some poolAddress =>
    if poolAddress = "" ∨ poolAddress = "0x0000000000000000000000000000000000000000" then
      { dex := "velocore", tokenIn := tokenIn, tokenOut := tokenOut
        amountIn := amountIn, amountOut := 0, success := false
        error := some "Pool address not configured" }
    else if result.success then
      { dex := "velocore", tokenIn := tokenIn, tokenOut := tokenOut
        amountIn := amountIn, amountOut := result.amountOut, success := true
        error := none }
    else
      { dex := "velocore", tokenIn := tokenIn, tokenOut := tokenOut
        amountIn := amountIn, amountOut := 0, success := false
        error := result.error }

/-- The per-venue enable flags of the dexes configuration. -/
structure DexesEnabled where
  mute : Bool
  syncswapV1 : Bool
  pancakeswapV3 : Bool
  velocore : Bool
deriving DecidableEq, Repr

/-- Embeds PriceFetcher.fetchAllPrices: in declaration order (mute,
syncswap_v1, pancakeswap_v3, velocore), push the adapter's quote exactly
when the venue is enabled. -/
def fetchAllPrices (cfg : DexesEnabled) (tokenIn tokenOut : String)
    (amountIn : Int) (muteResponse : Except String Int)
    (syncResult : SyncSwapQuoteResult) (pancakeAttempts : List PathAttempt)
    (velocorePool : Option String) (velocoreResult : VelocoreQuoteResult) :
    List DexPrice :=
  (if cfg.mute then [fetchMutePrice tokenIn tokenOut amountIn muteResponse] else []) ++
  (if cfg.syncswapV1 then [fetchSyncSwapV1Price tokenIn tokenOut amountIn syncResult] else []) ++
  (if cfg.pancakeswapV3 then [fetchPancakeSwapV3Price tokenIn tokenOut amountIn pancakeAttempts] else []) ++
  (if cfg.velocore then [fetchVelocorePrice tokenIn tokenOut amountIn velocorePool velocoreResult] else [])

/-- The accumulator step of OpportunityBuilder.fetchBestQuote: the running
pair of best quote and bestAmountOut. -/
def bestQuoteStep (acc : Option DexPrice × Int) (quote : DexPrice) :
    Option DexPrice × Int :=
  if quote.success && decide (quote.amountOut > acc.2) then
    (some quote, quote.amountOut)
  else acc

/-- Embeds the selection loop of OpportunityBuilder.fetchBestQuote over the
quotes returned by fetchAllPrices; bestAmountOut starts at 0, so a quote is
selected only when it is successful and its amountOut strictly exceeds both
0 and every previously selected amount. -/
def fetchBestQuote (quotes : List DexPrice) : Option DexPrice :=
  (quotes.foldl bestQuoteStep ((none : Option DexPrice), (0 : Int))).1

/-! ## Arithmetic facts about truncating (JS BigInt) division -/

theorem tdiv_nonpos_of_nonpos {a d : Int} (ha : a ≤ 0) (hd : 0 ≤ d) : a.tdiv d ≤ 0 := by
  have h : a.tdiv d = -((-a).tdiv d) := by
    rw [Int.neg_tdiv, neg_neg]
  rw [h]
  have : 0 ≤ (-a).tdiv d := Int.tdiv_nonneg (by omega) hd
  omega

theorem tdiv_pos_iff {a d : Int} (hd : 0 < d) : 0 < a.tdiv d ↔ d ≤ a := by
  rcases le_or_lt 0 a with ha | ha
  · rw [Int.tdiv_eq_ediv ha hd.le]
    constructor
    · intro h
      have := (Int.le_ediv_iff_mul_le hd).mp (by omega : (1 : Int) ≤ a / d)
      omega
    · intro h
      have := (Int.le_ediv_iff_mul_le hd).mpr (by omega : (1 : Int) * d ≤ a)
      omega
  · have h1 : a.tdiv d ≤ 0 := tdiv_nonpos_of_nonpos ha.le hd.le
    constructor
    · intro h; omega
    · intro h; omega

theorem tdiv_neg_iff {a d : Int} (hd : 0 < d) : a.tdiv d < 0 ↔ a ≤ -d := by
  rcases le_or_lt 0 a with ha | ha
  · have h1 : 0 ≤ a.tdiv d := Int.tdiv_nonneg ha hd.le
    constructor
    · intro h; omega
    · intro h; omega
  · have h : a.tdiv d = -((-a).tdiv d) := by rw [Int.neg_tdiv, neg_neg]
    rw [h]
    have h2 := tdiv_pos_iff (a := -a) hd
    constructor
    · intro hlt
      have : 0 < (-a).tdiv d := by omega
      have := h2.mp this
      omega
    · intro hle
      have : 0 < (-a).tdiv d := h2.mpr (by omega)
      omega

theorem tdiv_le_tdiv_of_le {a b d : Int} (hd : 0 < d) (h : a ≤ b) : a.tdiv d ≤ b.tdiv d := by
  rcases le_or_lt 0 a with ha | ha
  · have hb : 0 ≤ b := le_trans ha h
    rw [Int.tdiv_eq_ediv ha hd.le, Int.tdiv_eq_ediv hb hd.le]
    exact Int.ediv_le_ediv hd h
  · rcases le_or_lt 0 b with hb | hb
    · exact le_trans (tdiv_nonpos_of_nonpos ha.le hd.le) (Int.tdiv_nonneg hb hd.le)
    · have hna : a.tdiv d = -((-a).tdiv d) := by rw [Int.neg_tdiv, neg_neg]
      have hnb : b.tdiv d = -((-b).tdiv d) := by rw [Int.neg_tdiv, neg_neg]
      rw [hna, hnb]
      have hb' : (0 : Int) ≤ -b := by omega
      have hab : -b ≤ -a := by omega
      have : (-b).tdiv d ≤ (-a).tdiv d := by
        rw [Int.tdiv_eq_ediv hb' hd.le, Int.tdiv_eq_ediv (by omega) hd.le]
        exact Int.ediv_le_ediv hd hab
      omega

/-! ## Claim C1 -/

/-- C1 counterexample: with amountIn = 100000 > 0 the claim demands a strictly
negative result for amountOut = 99999 < amountIn and a strictly positive
result for amountOut = 100001 > amountIn, but truncating basis-point division
returns exactly 0 in both sub-basis-point cases. -/
theorem calculateGrossSpreadBps_strict_sign_counterexample :
    (0 : Int) < 100000 ∧ (99999 : Int) < 100000 ∧
      calculateGrossSpreadBps 100000 99999 = 0 ∧
      (100000 : Int) < 100001 ∧ calculateGrossSpreadBps 100000 100001 = 0 := by
  decide

/-- C1 (amended): for every amountIn > 0, calculateGrossSpreadBps is strictly
positive iff the scaled profit (amountOut - amountIn) * 10000 reaches amountIn,
strictly negative iff the scaled loss reaches amountIn, and zero on the whole
sub-basis-point band in between; in particular a positive result still implies
amountOut > amountIn, a negative result implies amountOut < amountIn, and
equal amounts give exactly zero. -/
theorem calculateGrossSpreadBps_sign_characterization (amountIn amountOut : Int)
    (h : 0 < amountIn) :
    (0 < calculateGrossSpreadBps amountIn amountOut ↔
      amountIn ≤ (amountOut - amountIn) * 10000)
  ∧ (calculateGrossSpreadBps amountIn amountOut < 0 ↔
      (amountOut - amountIn) * 10000 ≤ -amountIn)
  ∧ (amountOut = amountIn → calculateGrossSpreadBps amountIn amountOut = 0)
  ∧ (0 < calculateGrossSpreadBps amountIn amountOut → amountIn < amountOut)
  ∧ (calculateGrossSpreadBps amountIn amountOut < 0 → amountOut < amountIn) := by
  unfold calculateGrossSpreadBps
  rw [if_neg (by omega : ¬ amountIn = 0)]
  refine ⟨tdiv_pos_iff h, tdiv_neg_iff h, ?_, ?_, ?_⟩
  · intro he
    subst he
    simp
  · intro hp
    have := (tdiv_pos_iff h).mp hp
    omega
  · intro hn
    have := (tdiv_neg_iff h).mp hn
    omega

/-- C1 witness: the amended characterization applied at amountIn = 1000,
amountOut = 950 (a full −500 bps loss). -/
theorem calculateGrossSpreadBps_sign_characterization_witness :
    (0 : Int) < 1000 ∧
    ((0 < calculateGrossSpreadBps 1000 950 ↔ (1000 : Int) ≤ (950 - 1000) * 10000)
  ∧ (calculateGrossSpreadBps 1000 950 < 0 ↔ ((950 : Int) - 1000) * 10000 ≤ -1000)
  ∧ ((950 : Int) = 1000 → calculateGrossSpreadBps 1000 950 = 0)
  ∧ (0 < calculateGrossSpreadBps 1000 950 → (1000 : Int) < 950)
  ∧ (calculateGrossSpreadBps 1000 950 < 0 → (950 : Int) < 1000)) :=
  ⟨by decide, calculateGrossSpreadBps_sign_characterization 1000 950 (by decide)⟩

/-! ## Claim C6 -/

/-- C6 counterexample: mulDiv with scale = 0 and roundDown with unit = 0 do
not yield a defined zero result; the unguarded BigInt division throws
(modelled as none, which differs from some 0). -/
theorem mulDiv_roundDown_zero_divisor_counterexample :
    mulDiv 1 1 0 = none ∧ roundDown 5 0 = none ∧
      mulDiv 1 1 0 ≠ some 0 ∧ roundDown 5 0 ≠ some 0 := by
  decide

/-- C6 (amended): the guards really present in the math library are the ones
in toBasisPoints (zero total) and calculateGrossSpreadBps (zero amountIn),
which yield a defined zero; mulDiv with a zero scale and roundDown with a
zero unit are unguarded and raise (none) instead of yielding zero. -/
theorem divisionByZero_behavior (value x a b : Int) :
    toBasisPoints value 0 = 0 ∧ calculateGrossSpreadBps 0 x = 0 ∧
      mulDiv a b 0 = none ∧ roundDown value 0 = none := by
  refine ⟨?_, ?_, ?_, ?_⟩ <;> simp [toBasisPoints, calculateGrossSpreadBps, mulDiv, roundDown]

/-! ## Claim C9 -/

/-- C9: parsing "1.5" at 18 decimals then formatting at 18 decimals with 6
display decimals yields "1.500000", and parsing "1.123456789" at 6 decimals
truncates (never rounds) to the integer 1123456. -/
theorem parseAmount_formatAmount_truncation :
    formatAmount (parseAmount "1.5" 18) 18 6 = "1.500000" ∧
      parseAmount "1.123456789" 6 = 1123456 := by
  decide

/-! ## Claim C7 -/

/-- C7: under the off policy resolve returns the inputs unchanged with
original provenance on both sides; under force-native each side whose input
lower-cases to the configured bridged USDC.e address is replaced by the
stored (lower-cased) native USDC address while every other address passes
through verbatim; and the resolver decision (the provenance tags, hence
whether a substitution happened) is unchanged when input addresses change
only in letter case. -/
theorem resolve_policy_properties (nativeAddr bridgedAddr dex : String)
    (tokenIn tokenOut tokenIn' tokenOut' : String) (policy : AliasingPolicy)
    (hIn : toLowerStr tokenIn = toLowerStr tokenIn')
    (hOut : toLowerStr tokenOut = toLowerStr tokenOut') :
    (resolve (mkResolver nativeAddr bridgedAddr) dex tokenIn tokenOut .off =
      { tokenIn := tokenIn, tokenOut := tokenOut
        fromIn := .original, fromOut := .original })
  ∧ ((resolve (mkResolver nativeAddr bridgedAddr) dex tokenIn tokenOut .forceNative).tokenIn =
      if toLowerStr tokenIn = toLowerStr bridgedAddr then toLowerStr nativeAddr else tokenIn)
  ∧ ((resolve (mkResolver nativeAddr bridgedAddr) dex tokenIn tokenOut .forceNative).tokenOut =
      if toLowerStr tokenOut = toLowerStr bridgedAddr then toLowerStr nativeAddr else tokenOut)
  ∧ ((resolve (mkResolver nativeAddr bridgedAddr) dex tokenIn tokenOut policy).fromIn =
      (resolve (mkResolver nativeAddr bridgedAddr) dex tokenIn' tokenOut' policy).fromIn)
  ∧ ((resolve (mkResolver nativeAddr bridgedAddr) dex tokenIn tokenOut policy).fromOut =
      (resolve (mkResolver nativeAddr bridgedAddr) dex tokenIn' tokenOut' policy).fromOut) := by
  refine ⟨?_, ?_, ?_, ?_, ?_⟩
  · simp [resolve]
  · simp [resolve, mkResolver]
  · simp [resolve, mkResolver]
  · cases policy <;> simp [resolve, mkResolver, hIn, hOut]
  · cases policy <;> simp [resolve, mkResolver, hIn, hOut]

/-- C7 witness: the mainnet native/bridged USDC pair, with the bridged
address supplied in upper-case on the input side and a case-variant WETH
address on the output side, under the force-native policy. -/
theorem resolve_policy_properties_witness :
    (toLowerStr "0x3355DF6D4C9C3035724FD0E3914DE96A5A83AAF4" =
      toLowerStr "0x3355df6D4c9C3035724Fd0e3914dE96A5a83aaf4")
  ∧ ((resolve (mkResolver "0x1d17CBcF0D6D143135aE902365D2E5e2A16538D4"
        "0x3355df6D4c9C3035724Fd0e3914dE96A5a83aaf4") "syncswap"
        "0x3355DF6D4C9C3035724FD0E3914DE96A5A83AAF4"
        "0x5AEa5775959fBC2557Cc8789bC1bf90A239D9a91" .off =
      { tokenIn := "0x3355DF6D4C9C3035724FD0E3914DE96A5A83AAF4"
        tokenOut := "0x5AEa5775959fBC2557Cc8789bC1bf90A239D9a91"
        fromIn := .original, fromOut := .original })
  ∧ ((resolve (mkResolver "0x1d17CBcF0D6D143135aE902365D2E5e2A16538D4"
        "0x3355df6D4c9C3035724Fd0e3914dE96A5a83aaf4") "syncswap"
        "0x3355DF6D4C9C3035724FD0E3914DE96A5A83AAF4"
        "0x5AEa5775959fBC2557Cc8789bC1bf90A239D9a91" .forceNative).tokenIn =
      if toLowerStr "0x3355DF6D4C9C3035724FD0E3914DE96A5A83AAF4" =
          toLowerStr "0x3355df6D4c9C3035724Fd0e3914dE96A5a83aaf4" then
        toLowerStr "0x1d17CBcF0D6D143135aE902365D2E5e2A16538D4"
      else "0x3355DF6D4C9C3035724FD0E3914DE96A5A83AAF4")
  ∧ ((resolve (mkResolver "0x1d17CBcF0D6D143135aE902365D2E5e2A16538D4"
        "0x3355df6D4c9C3035724Fd0e3914dE96A5a83aaf4") "syncswap"
        "0x3355DF6D4C9C3035724FD0E3914DE96A5A83AAF4"
        "0x5AEa5775959fBC2557Cc8789bC1bf90A239D9a91" .forceNative).tokenOut =
      if toLowerStr "0x5AEa5775959fBC2557Cc8789bC1bf90A239D9a91" =
          toLowerStr "0x3355df6D4c9C3035724Fd0e3914dE96A5a83aaf4" then
        toLowerStr "0x1d17CBcF0D6D143135aE902365D2E5e2A16538D4"
      else "0x5AEa5775959fBC2557Cc8789bC1bf90A239D9a91")
  ∧ ((resolve (mkResolver "0x1d17CBcF0D6D143135aE902365D2E5e2A16538D4"
        "0x3355df6D4c9C3035724Fd0e3914dE96A5a83aaf4") "syncswap"
        "0x3355DF6D4C9C3035724FD0E3914DE96A5A83AAF4"
        "0x5AEa5775959fBC2557Cc8789bC1bf90A239D9a91" .forceNative).fromIn =
      (resolve (mkResolver "0x1d17CBcF0D6D143135aE902365D2E5e2A16538D4"
        "0x3355df6D4c9C3035724Fd0e3914dE96A5a83aaf4") "syncswap"
        "0x3355df6d4c9c3035724fd0e3914de96a5a83aaf4"
        "0x5aea5775959fbc2557cc8789bc1bf90a239d9a91" .forceNative).fromIn)
  ∧ ((resolve (mkResolver "0x1d17CBcF0D6D143135aE902365D2E5e2A16538D4"
        "0x3355df6D4c9C3035724Fd0e3914dE96A5a83aaf4") "syncswap"
        "0x3355DF6D4C9C3035724FD0E3914DE96A5A83AAF4"
        "0x5AEa5775959fBC2557Cc8789bC1bf90A239D9a91" .forceNative).fromOut =
      (resolve (mkResolver "0x1d17CBcF0D6D143135aE902365D2E5e2A16538D4"
        "0x3355df6D4c9C3035724Fd0e3914dE96A5a83aaf4") "syncswap"
        "0x3355df6d4c9c3035724fd0e3914de96a5a83aaf4"
        "0x5aea5775959fbc2557cc8789bc1bf90a239d9a91" .forceNative).fromOut)) :=
  ⟨by decide,
    resolve_policy_properties "0x1d17CBcF0D6D143135aE902365D2E5e2A16538D4"
      "0x3355df6D4c9C3035724Fd0e3914dE96A5a83aaf4" "syncswap"
      "0x3355DF6D4C9C3035724FD0E3914DE96A5A83AAF4"
      "0x5AEa5775959fBC2557Cc8789bC1bf90A239D9a91"
      "0x3355df6d4c9c3035724fd0e3914de96a5a83aaf4"
      "0x5aea5775959fbc2557cc8789bc1bf90a239d9a91" .forceNative
      (by decide) (by decide)⟩

/-! ## Claim C2 -/

/-- C2: for every opportunity produced by buildOpportunity, recognized holds
iff the gross spread is strictly positive, and executable holds iff
recognized holds, the net-profit estimate reaches the configured 6-decimal
USD minimum-profit threshold, and the slippage-adjusted spread is strictly
positive. -/
theorem buildOpportunity_flags (amountIn finalA usdValueIn usdValueOut
    estimatedGasCost estimatedGasCostUsdc maxSlippageBps minProfitUsdc : Int) :
    ((buildOpportunity amountIn finalA usdValueIn usdValueOut estimatedGasCost
        estimatedGasCostUsdc maxSlippageBps minProfitUsdc).recognized = true ↔
      0 < (buildOpportunity amountIn finalA usdValueIn usdValueOut estimatedGasCost
        estimatedGasCostUsdc maxSlippageBps minProfitUsdc).grossSpreadBps)
  ∧ ((buildOpportunity amountIn finalA usdValueIn usdValueOut estimatedGasCost
        estimatedGasCostUsdc maxSlippageBps minProfitUsdc).grossSpreadBps =
      calculateGrossSpreadBps amountIn finalA)
  ∧ ((buildOpportunity amountIn finalA usdValueIn usdValueOut estimatedGasCost
        estimatedGasCostUsdc maxSlippageBps minProfitUsdc).executable = true ↔
      ((buildOpportunity amountIn finalA usdValueIn usdValueOut estimatedGasCost
          estimatedGasCostUsdc maxSlippageBps minProfitUsdc).recognized = true
        ∧ minProfitUsdc ≤ (buildOpportunity amountIn finalA usdValueIn usdValueOut
            estimatedGasCost estimatedGasCostUsdc maxSlippageBps minProfitUsdc).netProfitEst
        ∧ 0 < (buildOpportunity amountIn finalA usdValueIn usdValueOut estimatedGasCost
            estimatedGasCostUsdc maxSlippageBps minProfitUsdc).slipAdjSpreadBps)) := by
  simp [buildOpportunity, and_assoc]

/-! ## Claim C8 -/

/-- C8: the net-profit estimate equals
max(0, max(0, usdValueOut - usdValueIn) - estimatedGasCostUsdc): gross profit
is floored at zero before the USD gas cost is subtracted and the final net
figure is floored at zero again, so it is never negative. -/
theorem buildOpportunity_netProfit_floor (amountIn finalA usdValueIn usdValueOut
    estimatedGasCost estimatedGasCostUsdc maxSlippageBps minProfitUsdc : Int) :
    (buildOpportunity amountIn finalA usdValueIn usdValueOut estimatedGasCost
        estimatedGasCostUsdc maxSlippageBps minProfitUsdc).netProfitEst =
      max 0 (max 0 (usdValueOut - usdValueIn) - estimatedGasCostUsdc)
  ∧ 0 ≤ (buildOpportunity amountIn finalA usdValueIn usdValueOut estimatedGasCost
        estimatedGasCostUsdc maxSlippageBps minProfitUsdc).netProfitEst := by
  simp only [buildOpportunity]
  constructor
  · split_ifs <;> omega
  · split_ifs <;> omega

/-! ## Claim C10 -/

/-- C10: for a built opportunity with positive input amount, non-negative
return-leg output and a configured slippage between 0 and 10000 basis
points, the slippage-adjusted spread never exceeds the gross spread, and
calculateGrossSpreadBps is monotone nondecreasing in amountOut for fixed
positive amountIn. -/
theorem buildOpportunity_slipAdj_le_gross (amountIn finalA usdValueIn usdValueOut
    estimatedGasCost estimatedGasCostUsdc maxSlippageBps minProfitUsdc : Int)
    (hIn : 0 < amountIn) (hA : 0 ≤ finalA)
    (hbps0 : 0 ≤ maxSlippageBps) (hbps1 : maxSlippageBps ≤ 10000) :
    (buildOpportunity amountIn finalA usdValueIn usdValueOut estimatedGasCost
        estimatedGasCostUsdc maxSlippageBps minProfitUsdc).slipAdjSpreadBps ≤
      (buildOpportunity amountIn finalA usdValueIn usdValueOut estimatedGasCost
        estimatedGasCostUsdc maxSlippageBps minProfitUsdc).grossSpreadBps
  ∧ ∀ out1 out2 : Int, out1 ≤ out2 →
      calculateGrossSpreadBps amountIn out1 ≤ calculateGrossSpreadBps amountIn out2 := by
  have hmono : ∀ out1 out2 : Int, out1 ≤ out2 →
      calculateGrossSpreadBps amountIn out1 ≤ calculateGrossSpreadBps amountIn out2 := by
    intro out1 out2 hle
    unfold calculateGrossSpreadBps
    rw [if_neg (by omega : ¬ amountIn = 0), if_neg (by omega : ¬ amountIn = 0)]
    exact tdiv_le_tdiv_of_le hIn (by omega)
  refine ⟨?_, hmono⟩
  have hslip : applySlippage finalA maxSlippageBps ≤ finalA := by
    unfold applySlippage applyBasisPointReduction
    have h2 : finalA * (10000 - maxSlippageBps) ≤ finalA * 10000 :=
      mul_le_mul_of_nonneg_left (by omega) hA
    have h3 := tdiv_le_tdiv_of_le (by norm_num : (0 : Int) < 10000) h2
    have h4 : (finalA * 10000).tdiv 10000 = finalA :=
      Int.mul_tdiv_cancel _ (by norm_num)
    omega
  simpa [buildOpportunity] using hmono _ _ hslip

/-- C10 witness: a 1000-unit round trip returning 1100 with a 50 bps
slippage configuration. -/
theorem buildOpportunity_slipAdj_le_gross_witness :
    ((0 : Int) < 1000 ∧ (0 : Int) ≤ 1100 ∧ (0 : Int) ≤ 50 ∧ (50 : Int) ≤ 10000)
  ∧ ((buildOpportunity 1000 1100 0 0 0 0 50 0).slipAdjSpreadBps ≤
      (buildOpportunity 1000 1100 0 0 0 0 50 0).grossSpreadBps
    ∧ ∀ out1 out2 : Int, out1 ≤ out2 →
        calculateGrossSpreadBps 1000 out1 ≤ calculateGrossSpreadBps 1000 out2) :=
  ⟨by decide,
    buildOpportunity_slipAdj_le_gross 1000 1100 0 0 0 0 50 0
      (by decide) (by decide) (by decide) (by decide)⟩

/-! ## Claim C3 -/

/-- C3: when a venue reports an output of zero without reverting, the
adapters surface success = true with amountOut = 0 rather than a failure:
shown for the Mute adapter (router response ok 0), for the SyncSwap engine
(quote-ABI probe returning 0), and for the PancakeSwap V3 path selection
(a successful path with output 0). -/
theorem zero_output_quote_surfaced_as_success :
    ((fetchMutePrice "0xTokenA" "0xTokenB" 1000000 (Except.ok 0)).success = true
      ∧ (fetchMutePrice "0xTokenA" "0xTokenB" 1000000 (Except.ok 0)).amountOut = 0)
  ∧ (((getSyncSwapQuote ⟨fun _ => 0, fun _ => false⟩ "0xTokenA" "0xTokenB" 1000000
        none none ⟨"0xPool", "", some 0, none, none⟩).1.success = true)
      ∧ ((getSyncSwapQuote ⟨fun _ => 0, fun _ => false⟩ "0xTokenA" "0xTokenB" 1000000
        none none ⟨"0xPool", "", some 0, none, none⟩).1.amountOut = 0))
  ∧ (((fetchPancakeSwapV3Price "0xTokenA" "0xTokenB" 1000000
        [{ pathType := "direct (fee: 500)", feeTiers := [500], amountOut := 0
           success := true, error := none }]).success = true)
      ∧ ((fetchPancakeSwapV3Price "0xTokenA" "0xTokenB" 1000000
        [{ pathType := "direct (fee: 500)", feeTiers := [500], amountOut := 0
           success := true, error := none }]).amountOut = 0)) := by
  decide

/-! ## Claim C4 -/

theorem fetchMutePrice_dex (tokenIn tokenOut : String) (amountIn : Int)
    (routerResponse : Except String Int) :
    (fetchMutePrice tokenIn tokenOut amountIn routerResponse).dex = "mute" := by
  cases routerResponse <;> rfl

theorem fetchSyncSwapV1Price_dex (tokenIn tokenOut : String) (amountIn : Int)
    (result : SyncSwapQuoteResult) :
    (fetchSyncSwapV1Price tokenIn tokenOut amountIn result).dex = "syncswap_v1" := by
  unfold fetchSyncSwapV1Price
  split <;> rfl

theorem fetchPancakeSwapV3Price_dex (tokenIn tokenOut : String) (amountIn : Int)
    (pathAttempts : List PathAttempt) :
    (fetchPancakeSwapV3Price tokenIn tokenOut amountIn pathAttempts).dex =
      "pancakeswap_v3" := by
  unfold fetchPancakeSwapV3Price
  split <;> rfl

theorem fetchVelocorePrice_dex (tokenIn tokenOut : String) (amountIn : Int)
    (velocorePool : Option String) (result : VelocoreQuoteResult) :
    (fetchVelocorePrice tokenIn tokenOut amountIn velocorePool result).dex =
      "velocore" := by
  unfold fetchVelocorePrice
  rcases velocorePool with _ | p
  · rfl
  · dsimp only
    split
    · rfl
    · split <;> rfl

/-- Full characterization of the fetchBestQuote fold, generalized over the
accumulator so the induction goes through: from an accumulator that is
either empty with bestAmountOut 0 or holds a successful quote with positive
amount equal to bestAmountOut, the fold yields none only from the empty
accumulator with no positive successful quote in the list, and a final
quote is successful with positive amount, bounds every successful quote in
the list, and is either the inherited accumulator or the first list element
attaining the final amount. -/
theorem bestQuote_fold_spec (l : List DexPrice) :
    ∀ acc : Option DexPrice × Int,
      (acc.1 = none → acc.2 = 0) →
      (∀ b, acc.1 = some b → acc.2 = b.amountOut ∧ b.success = true ∧ 0 < b.amountOut) →
      ((l.foldl bestQuoteStep acc).1 = none →
          acc.1 = none ∧ ∀ q ∈ l, q.success = true → q.amountOut ≤ 0)
    ∧ (∀ q, (l.foldl bestQuoteStep acc).1 = some q →
          (q.success = true ∧ 0 < q.amountOut)
        ∧ (∀ r ∈ l, r.success = true → r.amountOut ≤ q.amountOut)
        ∧ (acc.1 = some q ∨
            ∃ pre post, l = pre ++ q :: post ∧ acc.2 < q.amountOut ∧
              ∀ r ∈ pre, r.success = true → r.amountOut < q.amountOut)) := by
  induction l with
  | nil =>
    intro acc h0 hs
    refine ⟨fun h => ⟨h, by simp⟩, fun q hq => ?_⟩
    simp only [List.foldl_nil] at hq
    obtain ⟨_, hsu, hpos⟩ := hs q hq
    exact ⟨⟨hsu, hpos⟩, by simp, Or.inl hq⟩
  | cons a t ih =>
    intro acc h0 hs
    by_cases hcond : (a.success && decide (a.amountOut > acc.2)) = true
    · have hsucc : a.success = true := by
        have h := hcond
        simp only [Bool.and_eq_true] at h
        exact h.1
      have hgt : acc.2 < a.amountOut := by
        have h := hcond
        simp only [Bool.and_eq_true, decide_eq_true_eq] at h
        exact h.2
      have hstep : bestQuoteStep acc a = (some a, a.amountOut) := by
        unfold bestQuoteStep
        rw [if_pos hcond]
      have hpos : 0 < a.amountOut := by
        rcases hacc : acc.1 with _ | b
        · have := h0 hacc
          omega
        · obtain ⟨he, _, hbpos⟩ := hs b hacc
          omega
      obtain ⟨ih1, ih2⟩ := ih (some a, a.amountOut)
        (fun h => absurd h (by simp))
        (fun b hb => by
          have hb' : a = b := by simpa using hb
          subst hb'
          exact ⟨rfl, hsucc, hpos⟩)
      constructor
      · intro hnone
        rw [List.foldl_cons, hstep] at hnone
        obtain ⟨habs, _⟩ := ih1 hnone
        simp at habs
      · intro q hq
        rw [List.foldl_cons, hstep] at hq
        obtain ⟨qp, tb, hd⟩ := ih2 q hq
        refine ⟨qp, ?_, ?_⟩
        · intro r hr
          rcases List.mem_cons.mp hr with hra | hrt
          · subst hra
            rcases hd with hL | ⟨pre, post, heq, hlt, hpre⟩
            · have haq : r = q := by simpa using hL
              subst haq
              exact fun _ => le_refl _
            · intro _
              have hlt' : r.amountOut < q.amountOut := by simpa using hlt
              omega
          · exact tb r hrt
        · rcases hd with hL | ⟨pre, post, heq, hlt, hpre⟩
          · have haq : a = q := by simpa using hL
            subst haq
            exact Or.inr ⟨[], t, rfl, hgt, by simp⟩
          · have hlt' : a.amountOut < q.amountOut := by simpa using hlt
            refine Or.inr ⟨a :: pre, post, by rw [heq]; rfl, by omega, ?_⟩
            intro r hr
            rcases List.mem_cons.mp hr with hra | hrp
            · subst hra
              exact fun _ => hlt'
            · exact hpre r hrp
    · have hstep : bestQuoteStep acc a = acc := by
        unfold bestQuoteStep
        rw [if_neg hcond]
      have hanot : a.success = true → a.amountOut ≤ acc.2 := by
        intro hsu
        by_contra hgt
        apply hcond
        simp only [Bool.and_eq_true, decide_eq_true_eq]
        exact ⟨hsu, by omega⟩
      obtain ⟨ih1, ih2⟩ := ih acc h0 hs
      constructor
      · intro hnone
        rw [List.foldl_cons, hstep] at hnone
        obtain ⟨haccn, htb⟩ := ih1 hnone
        refine ⟨haccn, ?_⟩
        intro q hq
        rcases List.mem_cons.mp hq with hqa | hqt
        · subst hqa
          intro hsu
          have h1 := hanot hsu
          have h2 := h0 haccn
          omega
        · exact htb q hqt
      · intro q hq
        rw [List.foldl_cons, hstep] at hq
        obtain ⟨qp, tb, hd⟩ := ih2 q hq
        have hacc2q : acc.2 ≤ q.amountOut := by
          rcases hd with hL | ⟨pre, post, heq, hlt, hpre⟩
          · obtain ⟨he, _, _⟩ := hs q hL
            omega
          · omega
        refine ⟨qp, ?_, ?_⟩
        · intro r hr
          rcases List.mem_cons.mp hr with hra | hrt
          · subst hra
            intro hsu
            have := hanot hsu
            omega
          · exact tb r hrt
        · rcases hd with hL | ⟨pre, post, heq, hlt, hpre⟩
          · exact Or.inl hL
          · refine Or.inr ⟨a :: pre, post, by rw [heq]; rfl, hlt, ?_⟩
            intro r hr
            rcases List.mem_cons.mp hr with hra | hrp
            · subst hra
              intro hsu
              have := hanot hsu
              omega
            · exact hpre r hrp

/-- C4 counterexample: with only the Mute venue enabled and its router
reporting an output of zero without reverting, fetchAllPrices contains a
successful quote, yet fetchBestQuote returns none — so fetchBestQuote does
not return null exactly when no adapter succeeded. -/
theorem fetchBestQuote_null_despite_success_counterexample :
    (∃ q ∈ fetchAllPrices ⟨true, false, false, false⟩ "0xTokenA" "0xTokenB" 5
        (Except.ok 0)
        ⟨false, 0, none, none, none, some "No pools found", false⟩ [] none
        ⟨false, 0, some "All Velocore quote methods failed"⟩,
      q.success = true)
  ∧ fetchBestQuote (fetchAllPrices ⟨true, false, false, false⟩ "0xTokenA" "0xTokenB" 5
      (Except.ok 0)
      ⟨false, 0, none, none, none, some "No pools found", false⟩ [] none
      ⟨false, 0, some "All Velocore quote methods failed"⟩) = none := by
  decide

/-- C4 (amended): fetchAllPrices returns exactly one entry per enabled
adapter in declaration order (mute, syncswap_v1, pancakeswap_v3, velocore)
even when every adapter fails; fetchBestQuote returns null exactly when no
adapter succeeded with a strictly positive amountOut, and otherwise returns
a successful quote with positive output whose amountOut bounds every
successful quote, the earliest such quote in declaration order in case of a
tie. -/
theorem fetchAllPrices_fetchBestQuote_spec
    (cfg : DexesEnabled) (tokenIn tokenOut : String) (amountIn : Int)
    (muteResponse : Except String Int) (syncResult : SyncSwapQuoteResult)
    (pancakeAttempts : List PathAttempt) (velocorePool : Option String)
    (velocoreResult : VelocoreQuoteResult) (quotes : List DexPrice)
    (hq : quotes = fetchAllPrices cfg tokenIn tokenOut amountIn muteResponse
      syncResult pancakeAttempts velocorePool velocoreResult) :
    (quotes.map (fun q => q.dex) =
      (if cfg.mute then ["mute"] else []) ++
      (if cfg.syncswapV1 then ["syncswap_v1"] else []) ++
      (if cfg.pancakeswapV3 then ["pancakeswap_v3"] else []) ++
      (if cfg.velocore then ["velocore"] else []))
  ∧ (fetchBestQuote quotes = none ↔ ∀ q ∈ quotes, q.success = true → q.amountOut ≤ 0)
  ∧ (∀ q, fetchBestQuote quotes = some q →
        (q.success = true ∧ 0 < q.amountOut)
      ∧ (∀ r ∈ quotes, r.success = true → r.amountOut ≤ q.amountOut)
      ∧ ∃ pre post, quotes = pre ++ q :: post ∧
          ∀ r ∈ pre, r.success = true → r.amountOut < q.amountOut) := by
  obtain ⟨hP1, hP2⟩ := bestQuote_fold_spec quotes ((none : Option DexPrice), (0 : Int))
    (fun _ => rfl) (fun b hb => by simp at hb)
  refine ⟨?_, ⟨?_, ?_⟩, ?_⟩
  · subst hq
    rcases cfg with ⟨m, s, p, v⟩
    cases m <;> cases s <;> cases p <;> cases v <;>
      simp [fetchAllPrices, fetchMutePrice_dex, fetchSyncSwapV1Price_dex,
        fetchPancakeSwapV3Price_dex, fetchVelocorePrice_dex]
  · intro hnone
    exact (hP1 hnone).2
  · intro hall
    rcases hres : fetchBestQuote quotes with _ | q
    · rfl
    · obtain ⟨⟨hsu, hpos⟩, _, hd⟩ := hP2 q hres
      rcases hd with hL | ⟨pre, post, heq, _, _⟩
      · simp at hL
      · have hmem : q ∈ quotes := by
          rw [heq]
          exact List.mem_append_right _ (List.mem_cons_self _ _)
        have := hall q hmem hsu
        omega
  · intro q hq'
    obtain ⟨qp, tb, hd⟩ := hP2 q hq'
    rcases hd with hL | ⟨pre, post, heq, _, hpre⟩
    · simp at hL
    · exact ⟨qp, tb, pre, post, heq, hpre⟩

/-- Quote inputs used by the C4 witness: Mute enabled but failing,
SyncSwap enabled and succeeding with output 1050. -/
def witnessQuotesC4 : List DexPrice :=
  fetchAllPrices ⟨true, true, false, false⟩ "0xTokenA" "0xTokenB" 1000
    (Except.error "revert")
    ⟨true, 1050, some "0xPool", some "classic", some "ABI_A", none, false⟩ [] none
    ⟨false, 0, some "All Velocore quote methods failed"⟩

/-- C4 witness: both Mute (failed) and SyncSwap (successful, output 1050)
enabled; the aggregation lists both entries in declaration order and the
best quote is characterized accordingly. -/
theorem fetchAllPrices_fetchBestQuote_spec_witness :
    (witnessQuotesC4.map (fun q => q.dex) =
      (if (⟨true, true, false, false⟩ : DexesEnabled).mute then ["mute"] else []) ++
      (if (⟨true, true, false, false⟩ : DexesEnabled).syncswapV1 then ["syncswap_v1"] else []) ++
      (if (⟨true, true, false, false⟩ : DexesEnabled).pancakeswapV3 then ["pancakeswap_v3"] else []) ++
      (if (⟨true, true, false, false⟩ : DexesEnabled).velocore then ["velocore"] else []))
  ∧ (fetchBestQuote witnessQuotesC4 = none ↔
      ∀ q ∈ witnessQuotesC4, q.success = true → q.amountOut ≤ 0)
  ∧ (∀ q, fetchBestQuote witnessQuotesC4 = some q →
        (q.success = true ∧ 0 < q.amountOut)
      ∧ (∀ r ∈ witnessQuotesC4, r.success = true → r.amountOut ≤ q.amountOut)
      ∧ ∃ pre post, witnessQuotesC4 = pre ++ q :: post ∧
          ∀ r ∈ pre, r.success = true → r.amountOut < q.amountOut) :=
  fetchAllPrices_fetchBestQuote_spec ⟨true, true, false, false⟩ "0xTokenA" "0xTokenB"
    1000 (Except.error "revert")
    ⟨true, 1050, some "0xPool", some "classic", some "ABI_A", none, false⟩ [] none
    ⟨false, 0, some "All Velocore quote methods failed"⟩ witnessQuotesC4 rfl

/-! ## Claim C5 -/

theorem getSyncSwapQuote_state_shape (st : SyncSwapState) (tokenIn tokenOut : String)
    (amountIn : Int) (tokenInSymbol tokenOutSymbol : Option String)
    (net : SyncSwapNetwork) :
    (getSyncSwapQuote st tokenIn tokenOut amountIn tokenInSymbol tokenOutSymbol net).2.1 = st ∨
    (getSyncSwapQuote st tokenIn tokenOut amountIn tokenInSymbol tokenOutSymbol net).2.1 =
      recordError st tokenIn tokenOut ∨
    (getSyncSwapQuote st tokenIn tokenOut amountIn tokenInSymbol tokenOutSymbol net).2.1 =
      recordSuccess st tokenIn tokenOut := by
  unfold getSyncSwapQuote
  dsimp only
  repeat' split
  all_goals first
    | exact Or.inl rfl
    | exact Or.inr (Or.inl rfl)
    | exact Or.inr (Or.inr rfl)

theorem recordError_disabled_mono (st : SyncSwapState) (tokenIn tokenOut k : String)
    (h : st.disabledPairs k = true) :
    (recordError st tokenIn tokenOut).disabledPairs k = true := by
  unfold recordError
  dsimp only
  split
  · by_cases hk : k = pairKey tokenIn tokenOut <;> simp [hk, h]
  · exact h

theorem stepSyncSwap_disabled_mono (st : SyncSwapState) (c : SyncSwapCall) (k : String)
    (h : st.disabledPairs k = true) :
    (stepSyncSwap st c).disabledPairs k = true := by
  unfold stepSyncSwap
  rcases getSyncSwapQuote_state_shape st c.tokenIn c.tokenOut c.amountIn c.tokenInSymbol
      c.tokenOutSymbol c.net with hstate | hstate | hstate <;> rw [hstate]
  · exact h
  · exact recordError_disabled_mono _ _ _ _ h
  · exact h

theorem runSyncSwap_disabled_mono (calls : List SyncSwapCall) :
    ∀ (st : SyncSwapState) (k : String), st.disabledPairs k = true →
      (runSyncSwap st calls).disabledPairs k = true := by
  induction calls with
  | nil =>
    intro st k h
    simpa [runSyncSwap] using h
  | cons c cs ih =>
    intro st k h
    unfold runSyncSwap at *
    rw [List.foldl_cons]
    exact ih _ _ (stepSyncSwap_disabled_mono st c k h)

theorem recordError_counter_self (st : SyncSwapState) (tokenIn tokenOut : String) :
    (recordError st tokenIn tokenOut).errorCounters (pairKey tokenIn tokenOut) =
      st.errorCounters (pairKey tokenIn tokenOut) + 1 := by
  unfold recordError
  simp

theorem recordError_disabled_below_threshold (st : SyncSwapState)
    (tokenIn tokenOut : String)
    (h : st.errorCounters (pairKey tokenIn tokenOut) + 1 < MAX_CONSECUTIVE_ERRORS) :
    (recordError st tokenIn tokenOut).disabledPairs (pairKey tokenIn tokenOut) =
      st.disabledPairs (pairKey tokenIn tokenOut) := by
  unfold recordError
  dsimp only
  rw [if_neg (by omega)]

theorem recordError_disabled_at_threshold (st : SyncSwapState)
    (tokenIn tokenOut : String)
    (h : MAX_CONSECUTIVE_ERRORS ≤ st.errorCounters (pairKey tokenIn tokenOut) + 1) :
    (recordError st tokenIn tokenOut).disabledPairs (pairKey tokenIn tokenOut) = true := by
  unfold recordError
  dsimp only
  rw [if_pos h]
  simp

theorem recordError_iterate_counter (st : SyncSwapState) (tokenIn tokenOut : String) :
    ∀ n : Nat,
      (((fun s => recordError s tokenIn tokenOut)^[n]) st).errorCounters
          (pairKey tokenIn tokenOut) =
        st.errorCounters (pairKey tokenIn tokenOut) + n := by
  intro n
  induction n with
  | zero => simp
  | succ m ihm =>
    rw [Function.iterate_succ_apply', recordError_counter_self, ihm]
    omega

theorem recordError_iterate_not_disabled (st : SyncSwapState) (tokenIn tokenOut : String)
    (hc : st.errorCounters (pairKey tokenIn tokenOut) = 0)
    (hd : st.disabledPairs (pairKey tokenIn tokenOut) = false) :
    ∀ n : Nat, n < 5 →
      (((fun s => recordError s tokenIn tokenOut)^[n]) st).disabledPairs
        (pairKey tokenIn tokenOut) = false := by
  intro n
  induction n with
  | zero =>
    intro _
    simpa using hd
  | succ m ihm =>
    intro h5
    rw [Function.iterate_succ_apply']
    rw [recordError_disabled_below_threshold _ _ _ ?hlt]
    case hlt =>
      rw [recordError_iterate_counter st tokenIn tokenOut m, hc]
      unfold MAX_CONSECUTIVE_ERRORS
      omega
    exact ihm (by omega)

theorem recordError_five_disables (st : SyncSwapState) (tokenIn tokenOut : String)
    (hc : st.errorCounters (pairKey tokenIn tokenOut) = 0) :
    (((fun s => recordError s tokenIn tokenOut)^[5]) st).disabledPairs
      (pairKey tokenIn tokenOut) = true := by
  rw [show (5 : Nat) = 4 + 1 from rfl, Function.iterate_succ_apply']
  apply recordError_disabled_at_threshold
  rw [recordError_iterate_counter st tokenIn tokenOut 4, hc]
  unfold MAX_CONSECUTIVE_ERRORS
  omega

theorem getSyncSwapQuote_disabled_shortcircuit (st : SyncSwapState)
    (tokenIn tokenOut : String) (amountIn : Int)
    (tokenInSymbol tokenOutSymbol : Option String) (net : SyncSwapNetwork)
    (h : st.disabledPairs (pairKey tokenIn tokenOut) = true) :
    getSyncSwapQuote st tokenIn tokenOut amountIn tokenInSymbol tokenOutSymbol net =
      ({ success := false, amountOut := 0, poolAddress := none, poolType := none
         method := none
         error := some "SyncSwap disabled for this pair after 5 consecutive failures"
         disabled := true }, st, false) := by
  have hd : isPairDisabled st tokenIn tokenOut = true := h
  unfold getSyncSwapQuote
  rw [if_pos hd]

/-- C5: starting from a clean breaker state for one ordered pair, four
consecutive recorded failures leave the pair enabled and the fifth disables
it; a disabled pair makes every subsequent getSyncSwapQuote call
short-circuit with a disabled failure, an unchanged state and no network
attempt; the disabled mark survives any further sequence of calls; a single
success resets the pair's consecutive-failure counter to zero from any
state; and the pair key is case-insensitive in both addresses. -/
theorem syncswap_circuit_breaker_spec (st : SyncSwapState)
    (tokenIn tokenOut tokenIn' tokenOut' : String) (amountIn : Int)
    (tokenInSymbol tokenOutSymbol : Option String) (net : SyncSwapNetwork)
    (calls : List SyncSwapCall)
    (hcnt : st.errorCounters (pairKey tokenIn tokenOut) = 0)
    (hdis : st.disabledPairs (pairKey tokenIn tokenOut) = false)
    (hIn : toLowerStr tokenIn = toLowerStr tokenIn')
    (hOut : toLowerStr tokenOut = toLowerStr tokenOut') :
    (((fun s => recordError s tokenIn tokenOut)^[4]) st).disabledPairs
        (pairKey tokenIn tokenOut) = false
  ∧ (((fun s => recordError s tokenIn tokenOut)^[5]) st).disabledPairs
        (pairKey tokenIn tokenOut) = true
  ∧ (∀ st2 : SyncSwapState, st2.disabledPairs (pairKey tokenIn tokenOut) = true →
      getSyncSwapQuote st2 tokenIn tokenOut amountIn tokenInSymbol tokenOutSymbol net =
        ({ success := false, amountOut := 0, poolAddress := none, poolType := none
           method := none
           error := some "SyncSwap disabled for this pair after 5 consecutive failures"
           disabled := true }, st2, false))
  ∧ (∀ st2 : SyncSwapState, st2.disabledPairs (pairKey tokenIn tokenOut) = true →
      (runSyncSwap st2 calls).disabledPairs (pairKey tokenIn tokenOut) = true)
  ∧ (∀ st2 : SyncSwapState,
      (recordSuccess st2 tokenIn tokenOut).errorCounters (pairKey tokenIn tokenOut) = 0)
  ∧ pairKey tokenIn tokenOut = pairKey tokenIn' tokenOut' := by
  refine ⟨?_, ?_, ?_, ?_, ?_, ?_⟩
  · exact recordError_iterate_not_disabled st tokenIn tokenOut hcnt hdis 4 (by omega)
  · exact recordError_five_disables st tokenIn tokenOut hcnt
  · intro st2 h2
    exact getSyncSwapQuote_disabled_shortcircuit st2 tokenIn tokenOut amountIn
      tokenInSymbol tokenOutSymbol net h2
  · intro st2 h2
    exact runSyncSwap_disabled_mono calls st2 _ h2
  · intro st2
    unfold recordSuccess
    simp
  · unfold pairKey
    rw [hIn, hOut]

/-- Clean breaker state used by the C5 witness. -/
def witnessStateC5 : SyncSwapState :=
  ⟨fun _ => 0, fun _ => false⟩

/-- Network responses used by the C5 witness (no pools found). -/
def witnessNetC5 : SyncSwapNetwork :=
  ⟨"", "", none, none, none⟩

/-- C5 witness: the breaker specification applied to a clean state and the
pair 0xAB to 0xCD (with case variants 0xab, 0xcd). -/
theorem syncswap_circuit_breaker_spec_witness :
    (((fun s => recordError s "0xAB" "0xCD")^[4]) witnessStateC5).disabledPairs
        (pairKey "0xAB" "0xCD") = false
  ∧ (((fun s => recordError s "0xAB" "0xCD")^[5]) witnessStateC5).disabledPairs
        (pairKey "0xAB" "0xCD") = true
  ∧ (∀ st2 : SyncSwapState, st2.disabledPairs (pairKey "0xAB" "0xCD") = true →
      getSyncSwapQuote st2 "0xAB" "0xCD" 5 none none witnessNetC5 =
        ({ success := false, amountOut := 0, poolAddress := none, poolType := none
           method := none
           error := some "SyncSwap disabled for this pair after 5 consecutive failures"
           disabled := true }, st2, false))
  ∧ (∀ st2 : SyncSwapState, st2.disabledPairs (pairKey "0xAB" "0xCD") = true →
      (runSyncSwap st2 []).disabledPairs (pairKey "0xAB" "0xCD") = true)
  ∧ (∀ st2 : SyncSwapState,
      (recordSuccess st2 "0xAB" "0xCD").errorCounters (pairKey "0xAB" "0xCD") = 0)
  ∧ pairKey "0xAB" "0xCD" = pairKey "0xab" "0xcd" :=
  syncswap_circuit_breaker_spec witnessStateC5 "0xAB" "0xCD" "0xab" "0xcd" 5 none none
    witnessNetC5 [] rfl rfl (by decide) (by decide)

end Spec2Proof
